import Mathlib

set_option autoImplicit false

/-
Verification of the album persistence layer (database.py, media.py) against its
specification. Python byte strings are modelled as lists of naturals, Python
dicts as association lists, and raised exceptions as error values. External
collaborators (pysodium, pymongo, the json module, cv2) are modelled by their
documented contracts, passed in as explicit function arguments where a claim
depends on them.
-/

namespace Album

/-- Python bytes: a sequence of byte values. -/
abbrev Bytes := List Nat

/-- A bson.ObjectId, modelled as an abstract identifier. -/
abbrev ObjectId := Nat

/-- Python exceptions raised by the code under verification or its libraries. -/
inductive PyError where
  | valueError (msg : String)
  | typeError (msg : String)
  | notImplementedError (msg : String)
  | keyError (k : String)
  | jsonDecodeError
  | unicodeDecodeError
  | operationFailure (msg : String)
deriving DecidableEq, Repr

/-- Replace (or add) the binding of key `k` in an association list, as Python
dict item assignment does. -/
def setAssoc {α : Type} : List (String × α) → String → α → List (String × α)
  | [], k, v => [(k, v)]
  | (k', v') :: t, k, v =>
      if k' = k then (k, v) :: t else (k', v') :: setAssoc t k v

/- ===== ClusterClient (database.py lines 12-55) ===== -/

/-- ConnectionConfig: the TypedDict written by set_connection; each field holds
a base64-encoded byte string. -/
structure ConnectionConfig where
  key : Bytes
  nonce : Bytes
  value : Bytes
deriving DecidableEq, Repr

/-- A parsed JSON config object, restricted to the shape ClusterClient uses:
a map from config keys to connection entries. -/
abbrev Config := List (String × ConnectionConfig)

/-- The file system visible to ClusterClient: a map from paths to file text. -/
abbrev FS := List (String × String)

/-- ClusterClient instance state relevant to config handling: the cfg_path
attribute set in __init__ (default "mdb_cluster.json"). -/
structure ClusterClient where
  cfg_path : String
deriving DecidableEq, Repr

/-- The config key "mdb_connection" (ClusterClient.K_CFG_CONN). -/
def K_CFG_CONN : String := "mdb_connection"

/-- Embeds ClusterClient._read_config, whose body is
`return json.loads(self.cfg_path)`: the JSON parser is applied to the
configuration path string itself. The file system `fs` is in scope for the
method but is not consulted by this line. `none` models a raised
json.JSONDecodeError. `jsonLoads` is the external json.loads collaborator. -/
def read_config (jsonLoads : String → Option Config) (c : ClusterClient)
    (fs : FS) : Option Config :=
  jsonLoads c.cfg_path

/-- Embeds ClusterClient._write_config: `cfg = self._read_config()`, then
`cfg[K_CFG_CONN] = conn_cfg`, then the updated object is serialized by
`jsonDumps` and written to the file at cfg_path. `none` models the exception
propagating out of _read_config, in which case no file is touched. -/
def write_config (jsonLoads : String → Option Config)
    (jsonDumps : Config → String) (c : ClusterClient) (fs : FS)
    (conn_cfg : ConnectionConfig) : Option FS :=
  (read_config jsonLoads c fs).map fun cfg =>
    setAssoc fs c.cfg_path (jsonDumps (setAssoc cfg K_CFG_CONN conn_cfg))

/-- Embeds ClusterClient.set_connection: draws a fresh key and nonce from the
random source (passed in as `key`, `nonce`), seals `conn_str` with
crypto_secretbox (external collaborator `secretbox`), base64-encodes the three
byte strings (external collaborator `b64encode`) and persists them through
_write_config. -/
def set_connection (jsonLoads : String → Option Config)
    (jsonDumps : Config → String) (b64encode : Bytes → Bytes)
    (secretbox : String → Bytes → Bytes → Bytes) (key nonce : Bytes)
    (c : ClusterClient) (fs : FS) (conn_str : String) : Option FS :=
  let econn := secretbox conn_str nonce key
  write_config jsonLoads jsonDumps c fs
    ⟨b64encode key, b64encode nonce, b64encode econn⟩

/-- Embeds ClusterClient.connect: `self._read_config()[K_CFG_CONN]`, base64
decoding of the three fields, crypto_secretbox_open, then MongoClient(conn_str).
The returned value is the connection string handed to MongoClient; `none`
models any raised exception (JSONDecodeError, KeyError, decryption failure). -/
def connect (jsonLoads : String → Option Config) (b64decode : Bytes → Bytes)
    (secretbox_open : Bytes → Bytes → Bytes → Option String)
    (c : ClusterClient) (fs : FS) : Option String :=
  (read_config jsonLoads c fs).bind fun cfg =>
    (cfg.lookup K_CFG_CONN).bind fun cc =>
      secretbox_open (b64decode cc.value) (b64decode cc.nonce) (b64decode cc.key)

/- ===== The document store (pymongo collection, per its documented contract) ===== -/

/-- Index key ordering kind passed to create_index: pymongo.ASCENDING (the
integer 1) or pymongo.TEXT (the string "text"). -/
inductive IndexKind where
  | ascending
  | text
deriving DecidableEq, Repr

/-- The string pymongo uses for a key direction when generating the default
index name: "1" for ASCENDING, "text" for TEXT. -/
def indexKindStr : IndexKind → String
  | .ascending => "1"
  | .text => "text"

/-- An index specification: the ordered key list plus the unique flag, as
passed to Collection.create_index. -/
structure IndexSpec where
  keys : List (String × IndexKind)
  unique : Bool
deriving DecidableEq, Repr

/-- The default index name pymongo generates from the key list: the key fields
and directions joined by underscores, e.g. [("userid", ASCENDING)] becomes
"userid_1". -/
def genIndexName (keys : List (String × IndexKind)) : String :=
  String.intercalate "_" (keys.map fun p => p.1 ++ "_" ++ indexKindStr p.2)

/-- Server-side state of one mongo collection: its documents, its named
indices, and an instrumentation counter of create-index commands the client
has issued to the store. -/
structure MongoCollection (Doc : Type) where
  docs : List Doc
  indices : List (String × IndexSpec)
  createIndexCalls : Nat
deriving Repr

/-- Collection.index_information returns a mapping keyed by index NAME; the
automatic index on _id is always present under the name "_id_". We model the
key set. -/
def index_information {D : Type} (st : MongoCollection D) : List String :=
  "_id_" :: st.indices.map Prod.fst

/-- Collection.create_index per the mongo contract: the command is always
issued; if an index with the generated name already exists with the same
specification the command is a no-op success, if it exists with a different
specification the store raises, otherwise the index is created. -/
def create_index {D : Type} (st : MongoCollection D) (spec : IndexSpec) :
    MongoCollection D × Option PyError :=
  let nm := genIndexName spec.keys
  let stc : MongoCollection D :=
    { st with createIndexCalls := st.createIndexCalls + 1 }
  match st.indices.lookup nm with
  | some spec' =>
      if spec' = spec then (stc, none)
      else (stc, some (.operationFailure "IndexOptionsConflict"))
  | none => ({ stc with indices := stc.indices ++ [(nm, spec)] }, none)

/-- Collection.insert_one, store side: appends the document to the
collection. pymongo insert_one additionally assigns a driver-generated _id
into the PASSED document in place when it lacks one; that caller-visible
mutation is modelled by auth_insert_one below, where it matters for the
effect on the caller-supplied document — the store-side view here suffices
for properties of the resulting collection state. -/
def insert_one {D : Type} (st : MongoCollection D) (d : D) : MongoCollection D :=
  { st with docs := st.docs ++ [d] }

/-- Embeds CollectionClient._insert: `self.collection.insert_one(doc)` followed
by `self._create_indices()`. The subclass index routine is passed in as `ci`;
its error channel models an exception raised after the insert completed, which
propagates without undoing the insert. -/
def CollectionClient_insert {D : Type}
    (ci : MongoCollection D → MongoCollection D × Option PyError)
    (st : MongoCollection D) (d : D) : MongoCollection D × Option PyError :=
  ci (insert_one st d)

/- ===== Document shapes (database.py) ===== -/

/-- WeightedValue: a labeled weight. The Python weight is a float; its exact
numeric representation plays no role in any claim, so it is modelled as a
rational. -/
structure WeightedValue where
  value : String
  weight : Rat
deriving DecidableEq, Repr

/-- AccountStatusEnum: ACTIVE = 0, DEACTIVATED = 1, BANNED = 2. -/
inductive AccountStatusEnum where
  | ACTIVE
  | DEACTIVATED
  | BANNED
deriving DecidableEq, Repr

/-- AccountStatusRecord: status plus timestamp in seconds. -/
structure AccountStatusRecord where
  status : AccountStatusEnum
  timestamp : Int
deriving DecidableEq, Repr

/-- AuthRecord: client ip plus timestamp in seconds. -/
structure AuthRecord where
  ip : String
  timestamp : Int
deriving DecidableEq, Repr

/-- AuthDocument: _id is absent before insert; password holds the bson.Binary
password hash. -/
structure AuthDocument where
  _id : Option ObjectId
  metrics : List WeightedValue
  userid : String
  password : Bytes
  authrecs : List AuthRecord
  statusrecs : List AccountStatusRecord
deriving DecidableEq, Repr

/- ===== AuthCollectionClient (database.py lines 118-149) ===== -/

/-- The libsodium moderate operations-limit preset
(pysodium.crypto_pwhash_OPSLIMIT_MODERATE). -/
def crypto_pwhash_OPSLIMIT_MODERATE : Nat := 3

/-- The libsodium moderate memory-limit preset
(pysodium.crypto_pwhash_MEMLIMIT_MODERATE). -/
def crypto_pwhash_MEMLIMIT_MODERATE : Nat := 268435456

/-- The index declared by AuthCollectionClient._create_indices:
[("userid", ASCENDING)], unique. -/
def auth_index_spec : IndexSpec := ⟨[("userid", .ascending)], true⟩

/-- Embeds AuthCollectionClient._create_indices:
`if "userid" not in self.collection.index_information(): create_index(...)`.
Note the membership test compares the FIELD name "userid" against the keys of
index_information, which are index NAMES such as "userid_1". -/
def auth_create_indices (st : MongoCollection AuthDocument) :
    MongoCollection AuthDocument × Option PyError :=
  if "userid" ∉ index_information st then create_index st auth_index_spec
  else (st, none)

/-- Embeds `self.collection.find_one(. userid: userid .)`: the first document
whose userid field matches. -/
def find_one_userid (st : MongoCollection AuthDocument) (userid : String) :
    Option AuthDocument :=
  st.docs.find? fun d => d.userid == userid

/-- Embeds AuthCollectionClient.has_user: find_one is not None. -/
def has_user (st : MongoCollection AuthDocument) (userid : String) : Bool :=
  (find_one_userid st userid).isSome

/-- Result of a call to add_user: the collection state afterwards, the
caller-supplied document object as the caller sees it after the call (add_user
assigns into it in place), and the exception raised, if any. -/
structure AuthCallResult where
  state : MongoCollection AuthDocument
  callerDoc : AuthDocument
  exc : Option PyError
deriving Repr

/-- Embeds AuthCollectionClient.add_user. `pwhash_str` is the external
pysodium.crypto_pwhash_str collaborator (password, opslimit, memlimit →
hash string bytes). The method first checks has_user and raises
ValueError("userid already exists") — the DuplicateUserError of the spec —
then overwrites doc["password"] with the hash and runs _insert. -/
def add_user (pwhash_str : String → Nat → Nat → Bytes)
    (st : MongoCollection AuthDocument) (doc : AuthDocument)
    (password : String) : AuthCallResult :=
  if has_user st doc.userid then
    ⟨st, doc, some (.valueError "userid already exists")⟩
  else
    let doc' := { doc with
      password :=
        pwhash_str password crypto_pwhash_OPSLIMIT_MODERATE
          crypto_pwhash_MEMLIMIT_MODERATE }
    let r := CollectionClient_insert auth_create_indices st doc'
    ⟨r.1, doc', r.2⟩

/-- Embeds AuthCollectionClient.verify_user. `pwhash_str_verify` is the
external pysodium.crypto_pwhash_str_verify collaborator, modelled per the spec
contract as the constant-time boolean check of a password against a stored
hash. find_one returning None raises ValueError("user does not exist") — the
UserNotFoundError of the spec; otherwise the boolean is returned. -/
def verify_user (pwhash_str_verify : Bytes → String → Bool)
    (st : MongoCollection AuthDocument) (userid password : String) :
    Except PyError Bool :=
  match find_one_userid st userid with
  | none => .error (.valueError "user does not exist")
  | some doc => .ok (pwhash_str_verify doc.password password)

/-- pymongo Collection.insert_one with its documented effect on the PASSED
document included: when the document lacks an _id, the driver generates one
client-side (`oid` models the generated ObjectId) and assigns it into the
document in place before sending it; the document as mutated is what the
store appends. Returns the collection state and the caller-visible document
object after the call. -/
def auth_insert_one (st : MongoCollection AuthDocument) (doc : AuthDocument)
    (oid : ObjectId) : MongoCollection AuthDocument × AuthDocument :=
  let doc' :=
    match doc._id with
    | none => { doc with _id := some oid }
    | some _ => doc
  ({ st with docs := st.docs ++ [doc'] }, doc')

/-- Embeds AuthCollectionClient.add_user with the in-place mutations of the
caller-supplied document fully tracked: the password assignment performed by
add_user itself, then — inside _insert — the _id assignment performed by
pymongo insert_one, then _create_indices. callerDoc is the caller's document
object as the caller sees it after the call. -/
def add_user_tracked (pwhash_str : String → Nat → Nat → Bytes)
    (st : MongoCollection AuthDocument) (doc : AuthDocument)
    (password : String) (oid : ObjectId) : AuthCallResult :=
  if has_user st doc.userid then
    ⟨st, doc, some (.valueError "userid already exists")⟩
  else
    let doc' := { doc with
      password :=
        pwhash_str password crypto_pwhash_OPSLIMIT_MODERATE
          crypto_pwhash_MEMLIMIT_MODERATE }
    let r := auth_insert_one st doc' oid
    let ci := auth_create_indices r.1
    ⟨ci.1, r.2, ci.2⟩

/- ===== Permission flags (database.py lines 256-266 and 304-312) ===== -/

/- ChannelPermissionEnum bit values as produced by IntFlag auto():
NONE = 0, then successive powers of two. -/
namespace ChannelPermissionEnum

def NONE : Nat := 0
def READ : Nat := 1
def POST : Nat := 2
def POST_ADMIN : Nat := 4
def BOARD : Nat := 8
def BOARD_ADMIN : Nat := 16
def TITLE : Nat := 32
def DESCRIPTION : Nat := 64
def TAG : Nat := 128
def ADMIN : Nat := 256

end ChannelPermissionEnum

/- ProfilePermissionEnum bit values as produced by IntFlag auto(). -/
namespace ProfilePermissionEnum

def NONE : Nat := 0
def READ : Nat := 1
def CHANNEL : Nat := 2
def CHANNEL_ADMIN : Nat := 4
def TITLE : Nat := 8
def DESCRIPTION : Nat := 16
def TAG : Nat := 32
def ADMIN : Nat := 64

end ProfilePermissionEnum

/-- Modelled from the spec: the repository declares the flag vocabularies but
ships no evaluation routine. Section 4.5 fixes it: "evaluation checks
has(flag) via bitwise AND, and ADMIN must short-circuit every check to true".
Channel-scope capability check over a permission mask. -/
def hasChannelPermission (mask flag : Nat) : Bool :=
  decide (mask &&& ChannelPermissionEnum.ADMIN ≠ 0)
    || decide (mask &&& flag ≠ 0)

/-- Modelled from the spec: profile-scope capability check, same evaluation
rule with the profile-scope ADMIN bit. -/
def hasProfilePermission (mask flag : Nat) : Bool :=
  decide (mask &&& ProfilePermissionEnum.ADMIN ≠ 0)
    || decide (mask &&& flag ≠ 0)

/-- Modelled from the spec: the effective permission of a user for a resource
is the explicit per-user entry of the permissions map when present, else the
declared defaultPermissions of the resource (section 4.5: "A user with no
explicit entry receives exactly the resource's defaultPermissions"). -/
def effectivePermission (permissions : List (String × Nat))
    (defpermissions : Nat) (userid : String) : Nat :=
  (permissions.lookup userid).getD defpermissions

/- ===== DocumentReference and PostCollectionClient (database.py lines 198-253) ===== -/

/-- DocumentReference: collection name, document id, search context. -/
structure DocumentReference where
  collection : String
  docid : ObjectId
  context : String
deriving DecidableEq, Repr

/-- EncryptedText: conditionally encrypted text body. -/
structure EncryptedText where
  text : Bytes
  encrypted : Bool
deriving DecidableEq, Repr

/-- PostDocument as declared in database.py. parent is absent for root posts. -/
structure PostDocument where
  _id : Option ObjectId
  metrics : List WeightedValue
  userid : String
  title : String
  text : EncryptedText
  media : List DocumentReference
  timestamp : Int
  reactions : List (String × String)
  children : List ObjectId
  parent : Option ObjectId
deriving DecidableEq, Repr

/-- First index declared by PostCollectionClient._create_indices. -/
def post_index_spec1 : IndexSpec :=
  ⟨[("userid", .ascending), ("title", .ascending), ("media.context", .ascending)],
    false⟩

/-- Second (full-text) index declared by PostCollectionClient._create_indices. -/
def post_index_spec2 : IndexSpec :=
  ⟨[("userid", .text), ("title", .text), ("media.context", .text)], false⟩

/-- Embeds PostCollectionClient._create_indices: guarded on "userid" being
absent from index_information, then two create_index calls in sequence; an
exception from the first call skips the second. -/
def post_create_indices (st : MongoCollection PostDocument) :
    MongoCollection PostDocument × Option PyError :=
  if "userid" ∉ index_information st then
    let r1 := create_index st post_index_spec1
    match r1.2 with
    | some e => (r1.1, some e)
    | none => create_index r1.1 post_index_spec2
  else (st, none)

/-- Embeds PostCollectionClient.add_post: the body performs no validation of
the media DocumentReference values (the validation is only a TODO comment) and
directly runs _insert. -/
def add_post (st : MongoCollection PostDocument) (doc : PostDocument) :
    MongoCollection PostDocument × Option PyError :=
  CollectionClient_insert post_create_indices st doc

/- ===== ProfileCollectionClient (database.py lines 316-350) ===== -/

/-- ProfileDocument as declared in database.py; permission masks carry the
IntFlag bit values. -/
structure ProfileDocument where
  _id : Option ObjectId
  metrics : List WeightedValue
  userid : String
  permissions : List (String × Nat)
  defpermissions : Nat
  title : String
  description : String
  channels : List DocumentReference
  tags : List WeightedValue
  tagfilter : List DocumentReference
deriving DecidableEq, Repr

/-- First index declared by ProfileCollectionClient._create_indices:
compound ascending on (userid, title), unique; its generated name is
"userid_1_title_1". -/
def profile_index_spec1 : IndexSpec :=
  ⟨[("userid", .ascending), ("title", .ascending)], true⟩

/-- Second (full-text) index declared by
ProfileCollectionClient._create_indices; its generated name is
"userid_text_title_text". -/
def profile_index_spec2 : IndexSpec :=
  ⟨[("userid", .text), ("title", .text)], false⟩

/-- Embeds ProfileCollectionClient._create_indices: guarded on "userid" being
absent from index_information, then two create_index calls in sequence; an
exception from the first call skips the second. -/
def profile_create_indices (st : MongoCollection ProfileDocument) :
    MongoCollection ProfileDocument × Option PyError :=
  if "userid" ∉ index_information st then
    let r1 := create_index st profile_index_spec1
    match r1.2 with
    | some e => (r1.1, some e)
    | none => create_index r1.1 profile_index_spec2
  else (st, none)

/- ===== Constructor semantics (C4): super.__init__ versus super().__init__ ===== -/

/-- The Python runtime values that matter for the constructor claim: a super
object, a DatabaseClient instance, or anything else. -/
inductive PyObject where
  | superObj
  | databaseClientObj (dbname : String)
  | otherObj (desc : String)
deriving DecidableEq, Repr

/-- DatabaseClient instance state: the logical database it wraps. -/
structure DatabaseClient where
  dbname : String
deriving DecidableEq, Repr

/-- The runtime value of a DatabaseClient instance. -/
def DatabaseClient.toPyObject (d : DatabaseClient) : PyObject :=
  .databaseClientObj d.dbname

/-- CPython semantics of calling the builtin super type's unbound slot
__init__ with an explicit first argument, as `super.__init__(database, name)`
does: the descriptor requires its first argument to be a super instance and
raises TypeError otherwise. -/
def superType_init (self : PyObject) : Except PyError Unit :=
  match self with
  | .superObj => .ok ()
  | _ =>
      .error (.typeError
        "descriptor __init__ requires a super object")

/-- A constructed collection client object. collection is the attribute set by
CollectionClient.__init__, recording the bound database and collection name;
none means the attribute was never assigned. -/
structure CollectionClientObj where
  collection : Option (String × String)
deriving DecidableEq, Repr

/-- Embeds CollectionClient.__init__:
`self.collection = database.get_collection(name)`. -/
def CollectionClient_init (database : DatabaseClient) (name : String) :
    Except PyError CollectionClientObj :=
  .ok ⟨some (database.dbname, name)⟩

/-- Embeds AuthCollectionClient.__init__, which correctly calls
`super().__init__(database, name)`. -/
def AuthCollectionClient_init (database : DatabaseClient) (name : String) :
    Except PyError CollectionClientObj :=
  CollectionClient_init database name

/-- Embeds MediaCollectionClient construction in the python/album-db draft:
the class defines no __init__ of its own, so CollectionClient.__init__ runs. -/
def MediaCollectionClient_init (database : DatabaseClient) (name : String) :
    Except PyError CollectionClientObj :=
  CollectionClient_init database name

/-- Embeds PostCollectionClient.__init__, whose body is
`super.__init__(database, name)`: the builtin super type's __init__ descriptor
is called with the DatabaseClient instance as first argument; on the
(unreachable) success path no attribute is ever assigned. -/
def PostCollectionClient_init (database : DatabaseClient) (name : String) :
    Except PyError CollectionClientObj :=
  (superType_init database.toPyObject).map fun _ => ⟨none⟩

/-- Embeds ChannelCollectionClient.__init__ (same `super.__init__` body). -/
def ChannelCollectionClient_init (database : DatabaseClient) (name : String) :
    Except PyError CollectionClientObj :=
  (superType_init database.toPyObject).map fun _ => ⟨none⟩

/-- Embeds ProfileCollectionClient.__init__ (same `super.__init__` body). -/
def ProfileCollectionClient_init (database : DatabaseClient) (name : String) :
    Except PyError CollectionClientObj :=
  (superType_init database.toPyObject).map fun _ => ⟨none⟩

/-- Embeds RelationCollectionClient.__init__ (same `super.__init__` body). -/
def RelationCollectionClient_init (database : DatabaseClient) (name : String) :
    Except PyError CollectionClientObj :=
  (superType_init database.toPyObject).map fun _ => ⟨none⟩

/-- Embeds AlbumCollectionClient.__init__ (same `super.__init__` body). -/
def AlbumCollectionClient_init (database : DatabaseClient) (name : String) :
    Except PyError CollectionClientObj :=
  (superType_init database.toPyObject).map fun _ => ⟨none⟩

/-- Embeds MediaCollectionClient.__init__ of the album/backend draft, whose
body starts with `super.__init__(database, name)` and would only then assign
str_enc and img_ext; the TypeError is raised before any attribute is set. -/
def Backend_MediaCollectionClient_init (database : DatabaseClient)
    (name str_enc img_ext : String) : Except PyError CollectionClientObj :=
  (superType_init database.toPyObject).map fun _ => ⟨none⟩

/- ===== MediaClient codec (media.py lines 18-47) ===== -/

/-- MediaTypeEnum: NONE = 0, LINK, TEXT, IMAGE, VIDEO, SOUND. -/
inductive MediaTypeEnum where
  | NONE
  | LINK
  | TEXT
  | IMAGE
  | VIDEO
  | SOUND
deriving DecidableEq, Repr

/-- UTF-8 encoding of one unicode scalar value, as Python str.encode("utf-8")
produces for each character. -/
def utf8EncodeChar (c : Char) : List Nat :=
  if c.toNat < 128 then [c.toNat]
  else if c.toNat < 2048 then
    [192 + c.toNat / 64, 128 + c.toNat % 64]
  else if c.toNat < 65536 then
    [224 + c.toNat / 4096, 128 + c.toNat / 64 % 64, 128 + c.toNat % 64]
  else
    [240 + c.toNat / 262144, 128 + c.toNat / 4096 % 64,
      128 + c.toNat / 64 % 64, 128 + c.toNat % 64]

/-- UTF-8 encoding of a string (as a character list), the model of
str.encode(self.str_enc) for the default encoding "utf-8". -/
def utf8Encode : List Char → List Nat
  | [] => []
  | c :: cs => utf8EncodeChar c ++ utf8Encode cs

/-- Streaming UTF-8 decoder: one byte consumed per step. `pend` counts the
continuation bytes still expected for the current sequence, `v` accumulates
the code point bits so far, `acc` the characters decoded so far (reversed).
Lead bytes are classified by range and continuation bytes must lie in
[128, 192); any violation, or a truncated final sequence, is a decode failure
(a raised UnicodeDecodeError). -/
def utf8DecodeAux : List Nat → Nat → Nat → List Char → Option (List Char)
  | [], pend, _, acc => if pend = 0 then some acc.reverse else none
  | b :: rest, 0, _, acc =>
      if b < 128 then utf8DecodeAux rest 0 0 (Char.ofNat b :: acc)
      else if b < 192 then none
      else if b < 224 then utf8DecodeAux rest 1 (b - 192) acc
      else if b < 240 then utf8DecodeAux rest 2 (b - 224) acc
      else if b < 248 then utf8DecodeAux rest 3 (b - 240) acc
      else none
  | b :: rest, pend + 1, v, acc =>
      if 128 ≤ b ∧ b < 192 then
        if pend = 0 then
          utf8DecodeAux rest 0 0 (Char.ofNat (v * 64 + (b - 128)) :: acc)
        else utf8DecodeAux rest pend (v * 64 + (b - 128)) acc
      else none

/-- UTF-8 decoding of a byte sequence, the model of
bytes.decode(self.str_enc) for the default encoding "utf-8". It inverts
utf8Encode on every encoded string; on byte sequences no encoded string
produces, which no claim concerns, it is more permissive than CPython
(overlong forms are not rejected). -/
def utf8Decode (bs : List Nat) : Option (List Char) :=
  utf8DecodeAux bs 0 0 []

/-- A Python object handed to the media codec: a str, an image object handled
by the external cv2 collaborator, or None. -/
inductive MediaObj where
  | mstr (s : List Char)
  | mimg (tag : Nat)
  | mnone
deriving DecidableEq, Repr

/-- Python str() applied to the codec argument: the identity on str values;
other objects stringify to their textual representation, which no claim
depends on. -/
def pyStr : MediaObj → List Char
  | .mstr s => s
  | .mimg _ => "<image>".toList
  | .mnone => "None".toList

/-- Embeds MediaClient.encode for a client constructed with the defaults
(str_enc = "utf-8"): NONE returns None, LINK and TEXT return
str(obj).encode("utf-8"), IMAGE defers to the external cv2.imencode
collaborator `imencode` (ValueError when it reports failure), VIDEO and SOUND
raise NotImplementedError. -/
def MediaClient_encode (imencode : MediaObj → Option (List Nat))
    (type : MediaTypeEnum) (obj : MediaObj) :
    Except PyError (Option (List Nat)) :=
  match type with
  | .NONE => .ok none
  | .LINK => .ok (some (utf8Encode (pyStr obj)))
  | .TEXT => .ok (some (utf8Encode (pyStr obj)))
  | .IMAGE =>
      match imencode obj with
      | some bs => .ok (some bs)
      | none => .error (.valueError "failed to encode object as png image")
  | .VIDEO => .error (.notImplementedError "VIDEO type encoding not implemented")
  | .SOUND => .error (.notImplementedError "SOUND type encoding not implemented")

/-- Embeds MediaClient.decode for a client constructed with the defaults:
NONE returns None, LINK and TEXT return bobj.decode("utf-8"), IMAGE defers to
the external cv2.imdecode collaborator `imdecode`, VIDEO and SOUND raise
NotImplementedError. -/
def MediaClient_decode (imdecode : List Nat → MediaObj)
    (type : MediaTypeEnum) (bobj : List Nat) : Except PyError MediaObj :=
  match type with
  | .NONE => .ok .mnone
  | .LINK =>
      match utf8Decode bobj with
      | some s => .ok (.mstr s)
      | none => .error .unicodeDecodeError
  | .TEXT =>
      match utf8Decode bobj with
      | some s => .ok (.mstr s)
      | none => .error .unicodeDecodeError
  | .IMAGE => .ok (imdecode bobj)
  | .VIDEO => .error (.notImplementedError "VIDEO type decoding not implemented")
  | .SOUND => .error (.notImplementedError "SOUND type decoding not implemented")

/-- A concrete post whose media list holds a DocumentReference to a collection
name that is not one of the recognized domain collections. -/
def badPost : PostDocument :=
  { _id := none, metrics := [], userid := "alice", title := "t",
    text := ⟨[], false⟩, media := [⟨"not_a_real_collection", 7, "ctx"⟩],
    timestamp := 0, reactions := [], children := [], parent := none }

/- ===== Helper lemmas ===== -/

/-- Every unicode scalar value is below 0x110000. -/
theorem char_toNat_lt (c : Char) : c.toNat < 1114112 := by
  have h := c.valid
  rcases h with h | ⟨h1, h2⟩
  · exact Nat.lt_trans h (by decide)
  · exact h2

/-- The streaming decoder consumes the encoding of one character and emits
exactly that character. -/
theorem utf8DecodeAux_encodeChar (c : Char) (rest : List Nat) (acc : List Char) :
    utf8DecodeAux (utf8EncodeChar c ++ rest) 0 0 acc
      = utf8DecodeAux rest 0 0 (c :: acc) := by
  have hv : c.toNat < 1114112 := char_toNat_lt c
  rw [utf8EncodeChar]
  by_cases h1 : c.toNat < 128
  · rw [if_pos h1]
    show utf8DecodeAux (c.toNat :: rest) 0 0 acc = _
    rw [utf8DecodeAux, if_pos h1, Char.ofNat_toNat]
  · rw [if_neg h1]
    by_cases h2 : c.toNat < 2048
    · rw [if_pos h2]
      show utf8DecodeAux ((192 + c.toNat / 64) :: (128 + c.toNat % 64) :: rest)
        0 0 acc = _
      rw [utf8DecodeAux, if_neg (by omega), if_neg (by omega), if_pos (by omega)]
      rw [utf8DecodeAux, if_pos (by omega), if_pos rfl]
      have he : (192 + c.toNat / 64 - 192) * 64 + (128 + c.toNat % 64 - 128)
          = c.toNat := by omega
      rw [he, Char.ofNat_toNat]
    · rw [if_neg h2]
      by_cases h3 : c.toNat < 65536
      · rw [if_pos h3]
        show utf8DecodeAux ((224 + c.toNat / 4096) :: (128 + c.toNat / 64 % 64)
          :: (128 + c.toNat % 64) :: rest) 0 0 acc = _
        rw [utf8DecodeAux, if_neg (by omega), if_neg (by omega), if_neg (by omega),
          if_pos (by omega)]
        rw [utf8DecodeAux, if_pos (by omega), if_neg (by omega)]
        rw [utf8DecodeAux, if_pos (by omega), if_pos rfl]
        have he : ((224 + c.toNat / 4096 - 224) * 64 + (128 + c.toNat / 64 % 64 - 128))
            * 64 + (128 + c.toNat % 64 - 128) = c.toNat := by omega
        rw [he, Char.ofNat_toNat]
      · rw [if_neg h3]
        show utf8DecodeAux ((240 + c.toNat / 262144) :: (128 + c.toNat / 4096 % 64)
          :: (128 + c.toNat / 64 % 64) :: (128 + c.toNat % 64) :: rest) 0 0 acc = _
        rw [utf8DecodeAux, if_neg (by omega), if_neg (by omega), if_neg (by omega),
          if_neg (by omega), if_pos (by omega)]
        rw [utf8DecodeAux, if_pos (by omega), if_neg (by omega)]
        rw [utf8DecodeAux, if_pos (by omega), if_neg (by omega)]
        rw [utf8DecodeAux, if_pos (by omega), if_pos rfl]
        have he : (((240 + c.toNat / 262144 - 240) * 64 + (128 + c.toNat / 4096 % 64 - 128))
            * 64 + (128 + c.toNat / 64 % 64 - 128)) * 64 + (128 + c.toNat % 64 - 128)
            = c.toNat := by omega
        rw [he, Char.ofNat_toNat]

/-- The streaming decoder inverts utf8Encode, for any accumulator. -/
theorem utf8DecodeAux_encode (cs : List Char) (acc : List Char) :
    utf8DecodeAux (utf8Encode cs) 0 0 acc = some (acc.reverse ++ cs) := by
  induction cs generalizing acc with
  | nil => simp [utf8Encode, utf8DecodeAux]
  | cons c t ih =>
      rw [utf8Encode, utf8DecodeAux_encodeChar, ih]
      simp

/-- UTF-8 decoding inverts UTF-8 encoding on every string. -/
theorem utf8Decode_utf8Encode (cs : List Char) :
    utf8Decode (utf8Encode cs) = some cs := by
  rw [utf8Decode, utf8DecodeAux_encode]
  rfl

/-- create_index never changes the stored documents. -/
theorem create_index_docs {D : Type} (st : MongoCollection D) (spec : IndexSpec) :
    ((create_index st spec).1).docs = st.docs := by
  rw [create_index]
  cases h : st.indices.lookup (genIndexName spec.keys) with
  | none => simp [h]
  | some s =>
      simp only [h]
      split <;> rfl

/-- AuthCollectionClient._create_indices never changes the stored documents. -/
theorem auth_create_indices_docs (st : MongoCollection AuthDocument) :
    ((auth_create_indices st).1).docs = st.docs := by
  rw [auth_create_indices]
  split
  · exact create_index_docs st auth_index_spec
  · rfl

/-- PostCollectionClient._create_indices never changes the stored documents. -/
theorem post_create_indices_docs (st : MongoCollection PostDocument) :
    ((post_create_indices st).1).docs = st.docs := by
  rw [post_create_indices]
  split
  · cases h : (create_index st post_index_spec1).2 with
    | none =>
        simp only [h]
        rw [create_index_docs, create_index_docs]
    | some e =>
        simp only [h]
        exact create_index_docs st post_index_spec1
  · rfl

/-- find? succeeds on a list ending in an element satisfying the predicate. -/
theorem find?_append_singleton_isSome {α : Type} (p : α → Bool) (l : List α)
    (d : α) (h : p d = true) : ((l ++ [d]).find? p).isSome = true := by
  induction l with
  | nil => simp [List.find?, h]
  | cons a t ih =>
      rw [List.cons_append]
      cases hpa : p a with
      | true => rw [List.find?_cons_of_pos _ hpa]; rfl
      | false => rw [List.find?_cons_of_neg _ (by simp [hpa])]; exact ih

/-- Appending a fresh binding makes it visible to lookup. -/
theorem lookup_append_single (l : List (String × IndexSpec)) (k : String)
    (v : IndexSpec) (h : l.lookup k = none) :
    (l ++ [(k, v)]).lookup k = some v := by
  induction l with
  | nil => simp [List.lookup]
  | cons a t ih =>
      rw [List.cons_append]
      cases a with
      | mk k' v' =>
          simp only [List.lookup] at h ⊢
          cases hkk : (k == k') with
          | true => simp [hkk] at h
          | false =>
              simp only [hkk] at h ⊢
              exact ih h

/-- After a successful duplicate check, add_user appends exactly the caller
document with its password field replaced by the computed hash. -/
theorem add_user_state_docs (pwhash_str : String → Nat → Nat → Bytes)
    (st : MongoCollection AuthDocument) (doc : AuthDocument) (password : String)
    (h : has_user st doc.userid = false) :
    (add_user pwhash_str st doc password).state.docs
      = st.docs ++ [{ doc with
          password := pwhash_str password crypto_pwhash_OPSLIMIT_MODERATE
            crypto_pwhash_MEMLIMIT_MODERATE }] := by
  simp only [add_user, h, Bool.false_eq_true, if_false]
  show ((CollectionClient_insert auth_create_indices st _).1).docs = _
  rw [CollectionClient_insert, auth_create_indices_docs]
  rfl

/- ===== Claim theorems ===== -/

/-- C1. The claim states that set_connection persists the encrypted
ConnectionSecret and a later connect reads the persisted secret back and
decrypts it to exactly the stored connection string. The code refutes this:
_read_config runs json.loads on the configuration PATH string instead of the
file contents, so (i) under any json.loads for which the default path
"mdb_cluster.json" is not parseable JSON — as it is not for the real json
module — set_connection raises before persisting anything, and (ii) connect
is a constant function of the file system, so nothing set_connection ever
wrote can influence it. -/
theorem C1_connect_never_reads_persisted_secret
    (jsonLoads : String → Option Config)
    (h : jsonLoads "mdb_cluster.json" = none) :
    (∀ (jsonDumps : Config → String) (b64e : Bytes → Bytes)
        (sbox : String → Bytes → Bytes → Bytes) (key nonce : Bytes)
        (fs : FS) (s : String),
        set_connection jsonLoads jsonDumps b64e sbox key nonce
          ⟨"mdb_cluster.json"⟩ fs s = none)
    ∧ (∀ (b64d : Bytes → Bytes)
        (sbopen : Bytes → Bytes → Bytes → Option String)
        (c : ClusterClient) (fs fs' : FS),
        connect jsonLoads b64d sbopen c fs
          = connect jsonLoads b64d sbopen c fs') := by
  constructor
  · intro jsonDumps b64e sbox key nonce fs s
    simp [set_connection, write_config, read_config, h]
  · intro b64d sbopen c fs fs'
    rfl

/-- Witness for C1 at concrete collaborators: a json.loads that rejects the
default path, identity base64, and a trivial secretbox. -/
theorem C1_connect_never_reads_persisted_secret_witness :
    set_connection (fun _ => none) (fun _ => "") id (fun _ _ _ => [])
      [] [] ⟨"mdb_cluster.json"⟩ [] "mongodb://localhost" = none :=
  (C1_connect_never_reads_persisted_secret (fun _ => none) rfl).1
    (fun _ => "") id (fun _ _ _ => []) [] [] [] "mongodb://localhost"

/-- C2. verify_user raises exactly ValueError("user does not exist") — the
UserNotFoundError of the spec — when no AuthDocument with the given userid
exists; when one exists it returns, without raising, the boolean produced by
the external constant-time hash verification collaborator on the stored hash
and the supplied password (true exactly when the password matches the stored
hash, per that collaborator contract), so a mismatched password yields false,
never an exception. -/
theorem C2_verify_user_not_found_vs_boolean
    (pwhash_str_verify : Bytes → String → Bool)
    (st : MongoCollection AuthDocument) (userid password : String) :
    (find_one_userid st userid = none →
        verify_user pwhash_str_verify st userid password
          = .error (.valueError "user does not exist"))
    ∧ (∀ doc, find_one_userid st userid = some doc →
        verify_user pwhash_str_verify st userid password
          = .ok (pwhash_str_verify doc.password password)) := by
  constructor
  · intro h
    simp [verify_user, h]
  · intro doc h
    simp [verify_user, h]

/-- Witness for C2: an empty collection yields the user-not-found error; a
collection holding alice yields an ok boolean, false under a verifier that
rejects the supplied password. -/
theorem C2_verify_user_not_found_vs_boolean_witness :
    verify_user (fun _ _ => false) ⟨[], [], 0⟩ "alice" "pw"
        = .error (.valueError "user does not exist")
    ∧ verify_user (fun _ _ => false)
        ⟨[⟨none, [], "alice", [1, 2], [], []⟩], [], 0⟩ "alice" "wrong"
        = .ok false := by
  constructor
  · exact (C2_verify_user_not_found_vs_boolean (fun _ _ => false)
      ⟨[], [], 0⟩ "alice" "pw").1 rfl
  · exact (C2_verify_user_not_found_vs_boolean (fun _ _ => false)
      ⟨[⟨none, [], "alice", [1, 2], [], []⟩], [], 0⟩ "alice" "wrong").2
      ⟨none, [], "alice", [1, 2], [], []⟩ rfl

/-- C3. add_user raises exactly ValueError("userid already exists") — the
DuplicateUserError of the spec — whenever a document with the same userid is
already stored, leaving the collection state completely unchanged; otherwise
the inserted document carries, in place of the plaintext, exactly the hash
computed by the external memory-hard hash collaborator at the moderate
operation and memory presets, and a second add_user for the same userid then
fails with the duplicate error, again leaving the state unchanged. -/
theorem C3_add_user_duplicate_error_and_hash_storage
    (pwhash_str : String → Nat → Nat → Bytes)
    (st : MongoCollection AuthDocument) (doc : AuthDocument) (password : String) :
    (has_user st doc.userid = true →
        add_user pwhash_str st doc password
          = ⟨st, doc, some (.valueError "userid already exists")⟩)
    ∧ (has_user st doc.userid = false →
        (add_user pwhash_str st doc password).state.docs
            = st.docs ++ [{ doc with
                password := pwhash_str password crypto_pwhash_OPSLIMIT_MODERATE
                  crypto_pwhash_MEMLIMIT_MODERATE }]
        ∧ ∀ (doc2 : AuthDocument) (p2 : String), doc2.userid = doc.userid →
            add_user pwhash_str (add_user pwhash_str st doc password).state doc2 p2
              = ⟨(add_user pwhash_str st doc password).state, doc2,
                  some (.valueError "userid already exists")⟩) := by
  constructor
  · intro h
    simp [add_user, h]
  · intro h
    have hdocs := add_user_state_docs pwhash_str st doc password h
    refine ⟨hdocs, ?_⟩
    intro doc2 p2 hu
    set s1 := (add_user pwhash_str st doc password).state with hs1
    have hhas : has_user s1 doc2.userid = true := by
      rw [has_user, find_one_userid, hdocs, hu]
      exact find?_append_singleton_isSome _ _ _ (by simp)
    simp [add_user, hhas]

/-- Witness for C3: adding alice to a fresh collection stores the hashed
document, and a second add for alice fails with the duplicate error. -/
theorem C3_add_user_duplicate_error_and_hash_storage_witness :
    (add_user (fun _ _ _ => [9]) ⟨[], [], 0⟩
        ⟨none, [], "alice", [], [], []⟩ "pw").state.docs
      = [⟨none, [], "alice", [9], [], []⟩]
    ∧ add_user (fun _ _ _ => [9])
        (add_user (fun _ _ _ => [9]) ⟨[], [], 0⟩
          ⟨none, [], "alice", [], [], []⟩ "pw").state
        ⟨none, [], "alice", [], [], []⟩ "pw2"
      = ⟨(add_user (fun _ _ _ => [9]) ⟨[], [], 0⟩
            ⟨none, [], "alice", [], [], []⟩ "pw").state,
          ⟨none, [], "alice", [], [], []⟩,
          some (.valueError "userid already exists")⟩ := by
  have h := (C3_add_user_duplicate_error_and_hash_storage (fun _ _ _ => [9])
    ⟨[], [], 0⟩ ⟨none, [], "alice", [], [], []⟩ "pw").2 rfl
  exact ⟨h.1, h.2 ⟨none, [], "alice", [], [], []⟩ "pw2" rfl⟩

/-- C4. Every constructor written as `super.__init__(database, name)` —
PostCollectionClient, ChannelCollectionClient, ProfileCollectionClient,
RelationCollectionClient, AlbumCollectionClient, and the album/backend draft
of MediaCollectionClient — raises TypeError for every database and name
argument, because the builtin super type's __init__ descriptor receives a
DatabaseClient instead of a super object; so no operation of those clients is
reachable. AuthCollectionClient and the python/album-db MediaCollectionClient
construct normally via the base CollectionClient.__init__. -/
theorem C4_broken_constructors_raise_type_error
    (database : DatabaseClient) (name : String) :
    PostCollectionClient_init database name
        = .error (.typeError "descriptor __init__ requires a super object")
    ∧ ChannelCollectionClient_init database name
        = .error (.typeError "descriptor __init__ requires a super object")
    ∧ ProfileCollectionClient_init database name
        = .error (.typeError "descriptor __init__ requires a super object")
    ∧ RelationCollectionClient_init database name
        = .error (.typeError "descriptor __init__ requires a super object")
    ∧ AlbumCollectionClient_init database name
        = .error (.typeError "descriptor __init__ requires a super object")
    ∧ Backend_MediaCollectionClient_init database name "utf-8" ".png"
        = .error (.typeError "descriptor __init__ requires a super object")
    ∧ AuthCollectionClient_init database name
        = .ok ⟨some (database.dbname, name)⟩
    ∧ MediaCollectionClient_init database name
        = .ok ⟨some (database.dbname, name)⟩ :=
  ⟨rfl, rfl, rfl, rfl, rfl, rfl, rfl, rfl⟩

/-- C5. CollectionClient._insert is, definitionally, insert_one followed by
the subclass index routine applied to the post-insert state — submission
first, ensureIndices second; and for every index routine that only touches
index metadata (as all _create_indices in the repository do), the final
document list is the original list with the new document appended, whatever
error the index routine reports — an index failure never removes the inserted
document nor prevents the insert. -/
theorem C5_insert_submits_then_ensures_indices (D : Type)
    (ci : MongoCollection D → MongoCollection D × Option PyError)
    (st : MongoCollection D) (d : D)
    (hci : ∀ t, ((ci t).1).docs = t.docs) :
    CollectionClient_insert ci st d = ci (insert_one st d)
    ∧ ((CollectionClient_insert ci st d).1).docs = st.docs ++ [d] := by
  refine ⟨rfl, ?_⟩
  show ((ci (insert_one st d)).1).docs = st.docs ++ [d]
  rw [hci]
  rfl

/-- Witness for C5: an index routine that always fails still leaves the
inserted document durable. -/
theorem C5_insert_submits_then_ensures_indices_witness :
    ((CollectionClient_insert
        (fun t => (t, some (.operationFailure "IndexProvisioningError")))
        (⟨[], [], 0⟩ : MongoCollection AuthDocument)
        ⟨none, [], "alice", [], [], []⟩).1).docs
      = [⟨none, [], "alice", [], [], []⟩] :=
  (C5_insert_submits_then_ensures_indices AuthDocument
    (fun t => (t, some (.operationFailure "IndexProvisioningError")))
    ⟨[], [], 0⟩ ⟨none, [], "alice", [], [], []⟩ (fun _ => rfl)).2

/-- Running AuthCollectionClient._create_indices when the declared index is
already present under its generated name: the guard does not fire (it tests
the field name against index names), so a create-index command is still
issued, which the store answers as a no-op. -/
theorem auth_create_indices_when_present (st : MongoCollection AuthDocument)
    (hnm : "userid" ∉ index_information st)
    (hs : st.indices.lookup "userid_1" = some auth_index_spec) :
    auth_create_indices st
      = ({ st with createIndexCalls := st.createIndexCalls + 1 }, none) := by
  rw [auth_create_indices, if_pos hnm]
  simp only [create_index]
  rw [show genIndexName auth_index_spec.keys = "userid_1" from rfl, hs]
  simp

/-- Running AuthCollectionClient._create_indices when the declared index is
absent: the create-index command creates it under the generated name. -/
theorem auth_create_indices_when_absent (st : MongoCollection AuthDocument)
    (hnm : "userid" ∉ index_information st)
    (hs : st.indices.lookup "userid_1" = none) :
    auth_create_indices st
      = ({ st with
            createIndexCalls := st.createIndexCalls + 1
            indices := st.indices ++ [("userid_1", auth_index_spec)] }, none) := by
  rw [auth_create_indices, if_pos hnm]
  simp only [create_index]
  rw [show genIndexName auth_index_spec.keys = "userid_1" from rfl, hs]

/-- Adding the generated index name preserves absence of the field name from
index_information. -/
theorem userid_notin_after_create (st : MongoCollection AuthDocument)
    (hnm : "userid" ∉ index_information st) :
    "userid" ∉ index_information
      { st with
        createIndexCalls := st.createIndexCalls + 1
        indices := st.indices ++ [("userid_1", auth_index_spec)] } := by
  simp only [index_information, List.map_append, List.map_cons, List.map_nil,
    List.mem_cons, List.mem_append, not_or] at hnm ⊢
  exact ⟨hnm.1, hnm.2, by simp⟩

/-- create_index when an index of the generated name already exists with the
same specification: the command is still issued and is a no-op success. -/
theorem create_index_present {D : Type} (st : MongoCollection D)
    (spec : IndexSpec) (nm : String) (hg : genIndexName spec.keys = nm)
    (hs : st.indices.lookup nm = some spec) :
    create_index st spec
      = ({ st with createIndexCalls := st.createIndexCalls + 1 }, none) := by
  subst hg
  simp [create_index, hs]

/-- create_index when no index of the generated name exists: the index is
created under that name. -/
theorem create_index_absent {D : Type} (st : MongoCollection D)
    (spec : IndexSpec) (nm : String) (hg : genIndexName spec.keys = nm)
    (hs : st.indices.lookup nm = none) :
    create_index st spec
      = ({ st with
            createIndexCalls := st.createIndexCalls + 1
            indices := st.indices ++ [(nm, spec)] }, none) := by
  subst hg
  simp [create_index, hs]

/-- Appending a binding for a different key leaves lookup unchanged. -/
theorem lookup_append_ne (l : List (String × IndexSpec)) (k k' : String)
    (v : IndexSpec) (h : k ≠ k') :
    (l ++ [(k', v)]).lookup k = l.lookup k := by
  induction l with
  | nil => simp [List.lookup, beq_eq_false_iff_ne.mpr h]
  | cons a t ih =>
      rw [List.cons_append]
      cases a with
      | mk ka va =>
          simp only [List.lookup]
          cases hkk : (k == ka) with
          | true => rfl
          | false => exact ih

/-- Extending the index list by names other than "userid" keeps "userid" out
of index_information. -/
theorem notin_index_information_append {D E : Type} (st : MongoCollection E)
    (docs' : List D) (calls' : Nat) (news : List (String × IndexSpec))
    (hnm : "userid" ∉ index_information st)
    (hn : "userid" ∉ news.map Prod.fst) :
    "userid" ∉ index_information
      (⟨docs', st.indices ++ news, calls'⟩ : MongoCollection D) := by
  intro hmem
  rcases List.mem_cons.mp hmem with h | h
  · exact hnm (List.mem_cons.mpr (Or.inl h))
  · rw [List.map_append] at h
    rcases List.mem_append.mp h with h' | h'
    · exact hnm (List.mem_cons.mpr (Or.inr h'))
    · exact hn h'

/-- Running ProfileCollectionClient._create_indices when both declared
indices are already present under their generated names: the guard still
does not fire, two create-index commands are issued, both no-op. -/
theorem profile_create_indices_when_present (t : MongoCollection ProfileDocument)
    (hnm : "userid" ∉ index_information t)
    (k1 : t.indices.lookup "userid_1_title_1" = some profile_index_spec1)
    (k2 : t.indices.lookup "userid_text_title_text" = some profile_index_spec2) :
    profile_create_indices t
      = ({ t with createIndexCalls := t.createIndexCalls + 1 + 1 }, none) := by
  rw [profile_create_indices, if_pos hnm,
    create_index_present t profile_index_spec1 "userid_1_title_1" rfl k1]
  show create_index { t with createIndexCalls := t.createIndexCalls + 1 }
      profile_index_spec2 = _
  exact create_index_present _ profile_index_spec2 "userid_text_title_text" rfl k2

/-- First run of ProfileCollectionClient._create_indices on a state where no
index is literally named "userid" and each generated name, when present, is
bound to its declared specification: no error, documents untouched, both
declared indices present afterwards under their generated names, and the
same preconditions hold of the resulting state. -/
theorem profile_create_indices_first_run (st : MongoCollection ProfileDocument)
    (hnm : "userid" ∉ index_information st)
    (h1 : st.indices.lookup "userid_1_title_1" = none
      ∨ st.indices.lookup "userid_1_title_1" = some profile_index_spec1)
    (h2 : st.indices.lookup "userid_text_title_text" = none
      ∨ st.indices.lookup "userid_text_title_text" = some profile_index_spec2) :
    (profile_create_indices st).2 = none
    ∧ ((profile_create_indices st).1).docs = st.docs
    ∧ ((profile_create_indices st).1).indices.lookup "userid_1_title_1"
        = some profile_index_spec1
    ∧ ((profile_create_indices st).1).indices.lookup "userid_text_title_text"
        = some profile_index_spec2
    ∧ "userid" ∉ index_information (profile_create_indices st).1 := by
  rcases h1 with h1 | h1 <;> rcases h2 with h2 | h2
  · have e1 := create_index_absent st profile_index_spec1 "userid_1_title_1" rfl h1
    have h2' : (st.indices ++ [("userid_1_title_1", profile_index_spec1)]).lookup
        "userid_text_title_text" = none := by
      rw [lookup_append_ne _ _ _ _ (by decide)]
      exact h2
    have er : profile_create_indices st
        = ({ st with
              createIndexCalls := st.createIndexCalls + 1 + 1
              indices := (st.indices
                  ++ [("userid_1_title_1", profile_index_spec1)])
                ++ [("userid_text_title_text", profile_index_spec2)] }, none) := by
      rw [profile_create_indices, if_pos hnm, e1]
      show create_index { st with
          createIndexCalls := st.createIndexCalls + 1
          indices := st.indices ++ [("userid_1_title_1", profile_index_spec1)] }
        profile_index_spec2 = _
      exact create_index_absent _ profile_index_spec2 "userid_text_title_text" rfl h2'
    rw [er]
    refine ⟨rfl, rfl, ?_, ?_, ?_⟩
    · rw [lookup_append_ne _ _ _ _ (by decide)]
      exact lookup_append_single st.indices _ _ h1
    · exact lookup_append_single _ _ _ h2'
    · exact notin_index_information_append
        (⟨st.docs, st.indices ++ [("userid_1_title_1", profile_index_spec1)], 0⟩ :
          MongoCollection ProfileDocument) _ _ _
        (notin_index_information_append st st.docs 0 _ hnm (by decide)) (by decide)
  · have e1 := create_index_absent st profile_index_spec1 "userid_1_title_1" rfl h1
    have h2' : (st.indices ++ [("userid_1_title_1", profile_index_spec1)]).lookup
        "userid_text_title_text" = some profile_index_spec2 := by
      rw [lookup_append_ne _ _ _ _ (by decide)]
      exact h2
    have er : profile_create_indices st
        = ({ st with
              createIndexCalls := st.createIndexCalls + 1 + 1
              indices := st.indices
                ++ [("userid_1_title_1", profile_index_spec1)] }, none) := by
      rw [profile_create_indices, if_pos hnm, e1]
      show create_index { st with
          createIndexCalls := st.createIndexCalls + 1
          indices := st.indices ++ [("userid_1_title_1", profile_index_spec1)] }
        profile_index_spec2 = _
      exact create_index_present _ profile_index_spec2 "userid_text_title_text" rfl h2'
    rw [er]
    refine ⟨rfl, rfl, ?_, ?_, ?_⟩
    · exact lookup_append_single st.indices _ _ h1
    · exact h2'
    · exact notin_index_information_append st _ _ _ hnm (by decide)
  · have e1 := create_index_present st profile_index_spec1 "userid_1_title_1" rfl h1
    have er : profile_create_indices st
        = ({ st with
              createIndexCalls := st.createIndexCalls + 1 + 1
              indices := st.indices
                ++ [("userid_text_title_text", profile_index_spec2)] }, none) := by
      rw [profile_create_indices, if_pos hnm, e1]
      show create_index { st with createIndexCalls := st.createIndexCalls + 1 }
          profile_index_spec2 = _
      exact create_index_absent _ profile_index_spec2 "userid_text_title_text" rfl h2
    rw [er]
    refine ⟨rfl, rfl, ?_, ?_, ?_⟩
    · rw [lookup_append_ne _ _ _ _ (by decide)]
      exact h1
    · exact lookup_append_single st.indices _ _ h2
    · exact notin_index_information_append st _ _ _ hnm (by decide)
  · have er := profile_create_indices_when_present st hnm h1 h2
    rw [er]
    exact ⟨rfl, rfl, h1, h2, hnm⟩

/-- Both runs of AuthCollectionClient._create_indices succeed, the declared
index is present after the first run, and the second run changes neither the
index list nor the documents. -/
theorem auth_create_indices_run_twice (st : MongoCollection AuthDocument)
    (hnm : "userid" ∉ index_information st)
    (hspec : st.indices.lookup "userid_1" = none
      ∨ st.indices.lookup "userid_1" = some auth_index_spec) :
    (auth_create_indices st).2 = none
    ∧ ((auth_create_indices st).1).indices.lookup "userid_1" = some auth_index_spec
    ∧ ((auth_create_indices ((auth_create_indices st).1)).1).indices
        = ((auth_create_indices st).1).indices
    ∧ (auth_create_indices ((auth_create_indices st).1)).2 = none
    ∧ ((auth_create_indices ((auth_create_indices st).1)).1).docs
        = ((auth_create_indices st).1).docs := by
  rcases hspec with hs | hs
  · have h1 := auth_create_indices_when_absent st hnm hs
    have hl : (st.indices ++ [("userid_1", auth_index_spec)]).lookup "userid_1"
        = some auth_index_spec := lookup_append_single st.indices _ _ hs
    have h2 := auth_create_indices_when_present
      { st with
        createIndexCalls := st.createIndexCalls + 1
        indices := st.indices ++ [("userid_1", auth_index_spec)] }
      (userid_notin_after_create st hnm) hl
    rw [h1]
    exact ⟨rfl, hl, by rw [h2], by rw [h2], by rw [h2]⟩
  · have h1 := auth_create_indices_when_present st hnm hs
    have h2 := auth_create_indices_when_present
      { st with createIndexCalls := st.createIndexCalls + 1 } hnm hs
    rw [h1]
    exact ⟨rfl, hs, by rw [h2], by rw [h2], by rw [h2]⟩

/-- C6 counterexample. The claim asserts that _create_indices "issues
create-index calls only for indices not already present". On a fresh
collection the first run establishes every declared index under its generated
name ("userid_1" for Auth; "userid_1_title_1" and "userid_text_title_text"
for Profile), yet the second run issues one (Auth) respectively two (Profile)
further create-index commands — the guard compares the field name "userid"
against index NAMES and never fires. -/
theorem C6_guard_never_fires_counterexample :
    (((auth_create_indices ⟨[], [], 0⟩).1).indices.lookup "userid_1"
        = some auth_index_spec)
    ∧ ((auth_create_indices ((auth_create_indices ⟨[], [], 0⟩).1)).1).createIndexCalls
        = ((auth_create_indices ⟨[], [], 0⟩).1).createIndexCalls + 1
    ∧ (((profile_create_indices ⟨[], [], 0⟩).1).indices.lookup "userid_1_title_1"
        = some profile_index_spec1)
    ∧ (((profile_create_indices ⟨[], [], 0⟩).1).indices.lookup "userid_text_title_text"
        = some profile_index_spec2)
    ∧ ((profile_create_indices ((profile_create_indices ⟨[], [], 0⟩).1)).1).createIndexCalls
        = ((profile_create_indices ⟨[], [], 0⟩).1).createIndexCalls + 2 := by
  refine ⟨rfl, rfl, rfl, rfl, rfl⟩

/-- C6 amended. For both cited routines — AuthCollectionClient with its one
declared index and ProfileCollectionClient with its two (compound ascending
unique, compound text) — and for every collection state in which no index is
literally named "userid" and any index under a generated name carries its
declared specification: _create_indices raises no error, leaves every
declared index present under its generated name, and a second run changes
neither the index list nor the documents — the final index state is
idempotent; on a fresh collection each declared index exists exactly once
after one and after two runs. (The mechanism the claim describes is wrong:
the metadata guard never fires and create-index commands are issued on every
run, as the counterexample shows; idempotence comes from the store treating
identical re-creation as a no-op.) -/
theorem C6_create_indices_idempotent_index_state
    (stA : MongoCollection AuthDocument)
    (hnmA : "userid" ∉ index_information stA)
    (hsA : stA.indices.lookup "userid_1" = none
      ∨ stA.indices.lookup "userid_1" = some auth_index_spec)
    (stP : MongoCollection ProfileDocument)
    (hnmP : "userid" ∉ index_information stP)
    (h1P : stP.indices.lookup "userid_1_title_1" = none
      ∨ stP.indices.lookup "userid_1_title_1" = some profile_index_spec1)
    (h2P : stP.indices.lookup "userid_text_title_text" = none
      ∨ stP.indices.lookup "userid_text_title_text" = some profile_index_spec2) :
    (auth_create_indices stA).2 = none
    ∧ ((auth_create_indices stA).1).indices.lookup "userid_1" = some auth_index_spec
    ∧ ((auth_create_indices ((auth_create_indices stA).1)).1).indices
        = ((auth_create_indices stA).1).indices
    ∧ (auth_create_indices ((auth_create_indices stA).1)).2 = none
    ∧ ((auth_create_indices ((auth_create_indices stA).1)).1).docs
        = ((auth_create_indices stA).1).docs
    ∧ (profile_create_indices stP).2 = none
    ∧ ((profile_create_indices stP).1).indices.lookup "userid_1_title_1"
        = some profile_index_spec1
    ∧ ((profile_create_indices stP).1).indices.lookup "userid_text_title_text"
        = some profile_index_spec2
    ∧ ((profile_create_indices ((profile_create_indices stP).1)).1).indices
        = ((profile_create_indices stP).1).indices
    ∧ (profile_create_indices ((profile_create_indices stP).1)).2 = none
    ∧ ((profile_create_indices ((profile_create_indices stP).1)).1).docs
        = ((profile_create_indices stP).1).docs
    ∧ ((auth_create_indices (⟨[], [], 0⟩ : MongoCollection AuthDocument)).1).indices.countP
        (fun p => p.1 == "userid_1") = 1
    ∧ ((auth_create_indices ((auth_create_indices
        (⟨[], [], 0⟩ : MongoCollection AuthDocument)).1)).1).indices.countP
        (fun p => p.1 == "userid_1") = 1
    ∧ ((profile_create_indices (⟨[], [], 0⟩ : MongoCollection ProfileDocument)).1).indices.countP
        (fun p => p.1 == "userid_1_title_1") = 1
    ∧ ((profile_create_indices (⟨[], [], 0⟩ : MongoCollection ProfileDocument)).1).indices.countP
        (fun p => p.1 == "userid_text_title_text") = 1
    ∧ ((profile_create_indices ((profile_create_indices
        (⟨[], [], 0⟩ : MongoCollection ProfileDocument)).1)).1).indices.countP
        (fun p => p.1 == "userid_1_title_1") = 1
    ∧ ((profile_create_indices ((profile_create_indices
        (⟨[], [], 0⟩ : MongoCollection ProfileDocument)).1)).1).indices.countP
        (fun p => p.1 == "userid_text_title_text") = 1 := by
  have auth := auth_create_indices_run_twice stA hnmA hsA
  obtain ⟨p1, -, p3, p4, p5⟩ := profile_create_indices_first_run stP hnmP h1P h2P
  have second := profile_create_indices_when_present
    ((profile_create_indices stP).1) p5 p3 p4
  refine ⟨auth.1, auth.2.1, auth.2.2.1, auth.2.2.2.1, auth.2.2.2.2,
    p1, p3, p4, by rw [second], by rw [second], by rw [second],
    by decide, by decide, by decide, by decide, by decide, by decide⟩

/-- Witness for the amended C6 theorem on fresh Auth and Profile collections. -/
theorem C6_create_indices_idempotent_index_state_witness :
    (auth_create_indices (⟨[], [], 0⟩ : MongoCollection AuthDocument)).2 = none
    ∧ (profile_create_indices (⟨[], [], 0⟩ : MongoCollection ProfileDocument)).2 = none
    ∧ ((profile_create_indices (⟨[], [], 0⟩ : MongoCollection ProfileDocument)).1).indices.countP
        (fun p => p.1 == "userid_1_title_1") = 1 := by
  obtain ⟨a1, -, -, -, -, p1, -, -, -, -, -, -, -, c14, -, -, -⟩ :=
    C6_create_indices_idempotent_index_state ⟨[], [], 0⟩ (by decide) (Or.inl rfl)
      ⟨[], [], 0⟩ (by decide) (Or.inl rfl) (Or.inl rfl)
  exact ⟨a1, p1, c14⟩

/-- C7. (Modelled from the spec: the repository ships only the flag
vocabularies.) A mask with the ADMIN bit set passes every channel-scope and
profile-scope capability check whatever its other bits; a user without an
explicit permissions entry is evaluated with exactly the resource's declared
default mask. -/
theorem C7_admin_short_circuit_and_default_fallback :
    (∀ mask flag : Nat, mask &&& ChannelPermissionEnum.ADMIN ≠ 0 →
        hasChannelPermission mask flag = true)
    ∧ (∀ mask flag : Nat, mask &&& ProfilePermissionEnum.ADMIN ≠ 0 →
        hasProfilePermission mask flag = true)
    ∧ (∀ (permissions : List (String × Nat)) (defpermissions : Nat) (u : String),
        permissions.lookup u = none →
        effectivePermission permissions defpermissions u = defpermissions) := by
  refine ⟨?_, ?_, ?_⟩
  · intro mask flag h
    simp [hasChannelPermission, h]
  · intro mask flag h
    simp [hasProfilePermission, h]
  · intro permissions defpermissions u h
    simp [effectivePermission, h]

/-- Witness for C7: an ADMIN+READ channel mask passes the TAG check, the bare
profile ADMIN mask passes the TITLE check, and a user absent from the
permissions map receives the default mask. -/
theorem C7_admin_short_circuit_and_default_fallback_witness :
    hasChannelPermission 257 128 = true
    ∧ hasProfilePermission 64 8 = true
    ∧ effectivePermission [("bob", 3)] 1 "alice" = 1 := by
  refine ⟨?_, ?_, ?_⟩
  · exact (C7_admin_short_circuit_and_default_fallback).1 257 128 (by decide)
  · exact (C7_admin_short_circuit_and_default_fallback).2.1 64 8 (by decide)
  · exact (C7_admin_short_circuit_and_default_fallback).2.2 [("bob", 3)] 1 "alice"
      (by decide)

/-- C8. The claim requires InvalidReferenceError before any write when a
DocumentReference names an unrecognized collection. The code performs no
reference validation at all: add_post appends every document to the store
unconditionally, and on the concrete post referencing the unknown collection
"not_a_real_collection" the insert completes with the document stored and no
exception. -/
theorem C8_add_post_inserts_unvalidated_reference :
    (∀ (st : MongoCollection PostDocument) (doc : PostDocument),
        ((add_post st doc).1).docs = st.docs ++ [doc])
    ∧ ((add_post ⟨[], [], 0⟩ badPost).1).docs = [badPost]
    ∧ (add_post ⟨[], [], 0⟩ badPost).2 = none := by
  have hall : ∀ (st : MongoCollection PostDocument) (doc : PostDocument),
      ((add_post st doc).1).docs = st.docs ++ [doc] := by
    intro st doc
    rw [add_post, CollectionClient_insert, post_create_indices_docs]
    rfl
  exact ⟨hall, hall ⟨[], [], 0⟩ badPost, rfl⟩

/-- C9. For every string, TEXT and LINK payloads survive the encode/decode
round trip through the fixed utf-8 text encoding — in particular "hello"
does — while VIDEO and SOUND always raise NotImplementedError from both
encode and decode rather than returning data. -/
theorem C9_media_text_round_trip :
    (∀ (imencode : MediaObj → Option (List Nat)) (imdecode : List Nat → MediaObj)
        (s : List Char),
        MediaClient_encode imencode .TEXT (.mstr s) = .ok (some (utf8Encode s))
        ∧ MediaClient_decode imdecode .TEXT (utf8Encode s) = .ok (.mstr s)
        ∧ MediaClient_encode imencode .LINK (.mstr s) = .ok (some (utf8Encode s))
        ∧ MediaClient_decode imdecode .LINK (utf8Encode s) = .ok (.mstr s))
    ∧ (MediaClient_decode (fun _ => .mnone) .TEXT
          (utf8Encode "hello".toList) = .ok (.mstr "hello".toList))
    ∧ (∀ (imencode : MediaObj → Option (List Nat)) (obj : MediaObj),
        MediaClient_encode imencode .VIDEO obj
          = .error (.notImplementedError "VIDEO type encoding not implemented")
        ∧ MediaClient_encode imencode .SOUND obj
          = .error (.notImplementedError "SOUND type encoding not implemented"))
    ∧ (∀ (imdecode : List Nat → MediaObj) (b : List Nat),
        MediaClient_decode imdecode .VIDEO b
          = .error (.notImplementedError "VIDEO type decoding not implemented")
        ∧ MediaClient_decode imdecode .SOUND b
          = .error (.notImplementedError "SOUND type decoding not implemented")) := by
  have hdec : ∀ (imdecode : List Nat → MediaObj) (s : List Char),
      MediaClient_decode imdecode .TEXT (utf8Encode s) = .ok (.mstr s) := by
    intro imdecode s
    simp [MediaClient_decode, utf8Decode_utf8Encode]
  have hdecl : ∀ (imdecode : List Nat → MediaObj) (s : List Char),
      MediaClient_decode imdecode .LINK (utf8Encode s) = .ok (.mstr s) := by
    intro imdecode s
    simp [MediaClient_decode, utf8Decode_utf8Encode]
  refine ⟨?_, hdec _ _, ?_, ?_⟩
  · intro ie idc s
    exact ⟨rfl, hdec idc s, rfl, hdecl idc s⟩
  · intro ie obj
    exact ⟨rfl, rfl⟩
  · intro idc b
    exact ⟨rfl, rfl⟩

/-- C10 counterexample. The claim asserts that after add_user the caller's
document differs from the one passed in with all other fields left unchanged.
At a concrete input whose document carries no _id (the normal pre-insert
state), the insert inside add_user — pymongo insert_one — also assigns the
driver-generated _id into the caller's document in place: the _id field
changes from none to the generated id, so the caller's document is not the
original with only the password replaced. -/
theorem C10_id_assigned_counterexample :
    (add_user_tracked (fun _ _ _ => [9]) ⟨[], [], 0⟩
        ⟨none, [], "alice", [], [], []⟩ "pw" 5).callerDoc._id = some 5
    ∧ (⟨none, [], "alice", [], [], []⟩ : AuthDocument)._id = none
    ∧ (add_user_tracked (fun _ _ _ => [9]) ⟨[], [], 0⟩
        ⟨none, [], "alice", [], [], []⟩ "pw" 5).callerDoc
      ≠ { (⟨none, [], "alice", [], [], []⟩ : AuthDocument) with password := [9] } := by
  refine ⟨rfl, rfl, by decide⟩

/-- C10 amended. After the duplicate check passes, add_user assigns the
computed hash into the password field of the caller-supplied document, and
the insert then assigns the driver-generated _id into it (the document
carries no _id before insert): the caller's document afterwards equals the
original with exactly the password and _id fields replaced — all other
fields unchanged — differs from the original, and is exactly the document
appended to the collection; this holds also when the index step errors,
since both mutations precede _create_indices. -/
theorem C10_add_user_mutates_caller_doc (pwhash_str : String → Nat → Nat → Bytes)
    (st : MongoCollection AuthDocument) (doc : AuthDocument) (password : String)
    (oid : ObjectId) (h : has_user st doc.userid = false)
    (hid : doc._id = none) :
    (add_user_tracked pwhash_str st doc password oid).callerDoc
        = { doc with
            _id := some oid
            password := pwhash_str password crypto_pwhash_OPSLIMIT_MODERATE
              crypto_pwhash_MEMLIMIT_MODERATE }
    ∧ (add_user_tracked pwhash_str st doc password oid).callerDoc ≠ doc
    ∧ (add_user_tracked pwhash_str st doc password oid).state.docs
        = st.docs ++ [(add_user_tracked pwhash_str st doc password oid).callerDoc] := by
  have hc : (add_user_tracked pwhash_str st doc password oid).callerDoc
      = { doc with
          _id := some oid
          password := pwhash_str password crypto_pwhash_OPSLIMIT_MODERATE
            crypto_pwhash_MEMLIMIT_MODERATE } := by
    simp [add_user_tracked, h, auth_insert_one, hid]
  refine ⟨hc, ?_, ?_⟩
  · rw [hc]
    intro he
    have h0 := congrArg AuthDocument._id he
    rw [hid] at h0
    exact Option.noConfusion h0
  · rw [hc]
    simp [add_user_tracked, h, auth_insert_one, hid, auth_create_indices_docs]

/-- Witness for C10 with a concrete hash collaborator and driver id on an
empty collection. -/
theorem C10_add_user_mutates_caller_doc_witness :
    (add_user_tracked (fun _ _ _ => [0]) ⟨[], [], 0⟩
        ⟨none, [], "alice", [], [], []⟩ "pw" 7).callerDoc
        = ⟨some 7, [], "alice", [0], [], []⟩
    ∧ (add_user_tracked (fun _ _ _ => [0]) ⟨[], [], 0⟩
        ⟨none, [], "alice", [], [], []⟩ "pw" 7).callerDoc
        ≠ ⟨none, [], "alice", [], [], []⟩
    ∧ (add_user_tracked (fun _ _ _ => [0]) ⟨[], [], 0⟩
        ⟨none, [], "alice", [], [], []⟩ "pw" 7).state.docs
        = [] ++ [(add_user_tracked (fun _ _ _ => [0]) ⟨[], [], 0⟩
            ⟨none, [], "alice", [], [], []⟩ "pw" 7).callerDoc] :=
  C10_add_user_mutates_caller_doc (fun _ _ _ => [0]) ⟨[], [], 0⟩
    ⟨none, [], "alice", [], [], []⟩ "pw" 7 rfl rfl

end Album
